import Mathlib

/-!
# Cloud argument validation (`pkg/cmdconfig/validate.go`)

A shallow embedding of `ValidateCloudArgs` and its helpers.  The viper
configuration store is threaded through explicitly: every function that calls
`viper.Set` returns the store it leaves behind together with its Go `error`
result (`none` is `nil`).  The functions of other packages that the file calls
(`cloud.GetUserWorkspace`, `filehelpers.Tildefy`, `filehelpers.DirectoryExists`,
`steampipeconfig.IsCloudWorkspaceIdentifier`) are parameters, collected in
`Env`.

`displayConfig`, which `ValidateCloudArgs` defers, only reads the store and the
process environment and prints; it cannot change the returned error or the
store and is left out.
-/

namespace Cmdconfig

/-! ## Errors -/

/-- Go `error` values that can leave this file.  `MissingCloudTokenError` is the
package-level value `constants.MissingCloudTokenError`; `Errorf msg` is a value
built by `fmt.Errorf` whose text is `msg`; `External msg` is any error value
made elsewhere (by the cloud client or the path helpers). -/
inductive Error where
  | MissingCloudTokenError
  | Errorf (msg : String)
  | External (msg : String)
  deriving DecidableEq, Repr

/-! ## The configuration store -/

/-- Modelled from the spec: the argument-name constants of package `constants`
(`constants.ArgShare`, ...), which are not in the source.  The spec describes
them as stable identifiers, one per setting; `Other name` stands for every other
key the store may hold. -/
inductive Key where
  | ArgShare
  | ArgSnapshot
  | ArgCloudToken
  | ArgCloudHost
  | ArgWorkspaceDatabase
  | ArgSnapshotLocation
  | ArgSnapshotTag
  | ArgInstallDir
  | ArgModLocation
  | ArgWorkspaceProfile
  | Other (name : String)
  deriving DecidableEq, Repr

/-- A value held by the store under a key.  Viper is an external library; its
store is modelled as far as this file uses it: each key is read through one
getter only, and a getter applied to a value of another kind yields the zero
value of its type. -/
inductive Value where
  | unset
  | bool (b : Bool)
  | str (s : String)
  | strs (l : List String)
  deriving DecidableEq, Repr

/-- The viper store: the value held under each key. -/
abbrev Viper := Key → Value

namespace Viper

/-- The getter `viper.GetBool`: the stored boolean, `false` when there is none. -/
def GetBool (v : Viper) (key : Key) : Bool :=
  match v key with
  | .bool b => b
  | _ => false

/-- The getter `viper.GetString`: the stored string, `""` when there is none. -/
def GetString (v : Viper) (key : Key) : String :=
  match v key with
  | .str s => s
  | _ => ""

/-- The getter `viper.GetStringSlice`: the stored list, empty when there is none. -/
def GetStringSlice (v : Viper) (key : Key) : List String :=
  match v key with
  | .strs l => l
  | _ => []

/-- The setter `viper.Set`: overrides the value held under `key`. -/
def Set (v : Viper) (key : Key) (value : Value) : Viper :=
  fun k => if k = key then value else v k

end Viper

/-! ## Collaborators -/

/-- The functions of other packages called by this file, and the text of the
tag flag name used in one message. -/
structure Env where
  /-- The call `cloud.GetUserWorkspace(token)`. -/
  GetUserWorkspace : String → Except Error String
  /-- The call `filehelpers.Tildefy(path)`. -/
  Tildefy : String → Except Error String
  /-- The call `filehelpers.DirectoryExists(path)`. -/
  DirectoryExists : String → Bool
  /-- The call `steampipeconfig.IsCloudWorkspaceIdentifier(s)`. -/
  IsCloudWorkspaceIdentifier : String → Bool
  /-- The string value of `constants.ArgSnapshotTag`. -/
  ArgSnapshotTag : String

/-! ## `strings.Split` with a one-character separator -/

/-- Segments of a character list around each occurrence of `sep`. -/
def splitChars (sep : Char) : List Char → List (List Char)
  | [] => [[]]
  | c :: cs =>
    if c = sep then [] :: splitChars sep cs
    else
      match splitChars sep cs with
      | [] => [[c]]
      | seg :: segs => (c :: seg) :: segs

/-- Go's `strings.Split(s, sep)` for a separator of one character: the
substrings between the occurrences of `sep`, one more than there are
occurrences. -/
def Split (s : String) (sep : Char) : List String :=
  (splitChars sep s.toList).map String.mk

/-! ## The validator -/

/-- The loop of `validateSnapshotTags` over the tag list. -/
def validateSnapshotTagsLoop (env : Env) : List String → Option Error
  | [] => none
  | tagStr :: rest =>
    if (Split tagStr '=').length ≠ 2 then
      some (.Errorf ("snapshot tags must be specified '--" ++ env.ArgSnapshotTag ++ " key=value'"))
    else validateSnapshotTagsLoop env rest

/-- Source: `validateSnapshotTags`. -/
def validateSnapshotTags (env : Env) (v : Viper) : Option Error :=
  let tags := v.GetStringSlice .ArgSnapshotTag
  validateSnapshotTagsLoop env tags

/-- Source: `setSnapshotLocationFromDefaultWorkspace`. -/
def setSnapshotLocationFromDefaultWorkspace (env : Env) (cloudToken : String) (v : Viper) :
    Option Error × Viper :=
  match env.GetUserWorkspace cloudToken with
  | .error err => (some err, v)
  | .ok workspace => (none, v.Set .ArgSnapshotLocation (.str workspace))

/-- Source: `validateSnapshotLocation`. -/
def validateSnapshotLocation (env : Env) (cloudToken : String) (v : Viper) :
    Option Error × Viper :=
  let snapshotLocation := v.GetString .ArgSnapshotLocation
  -- if snapshot location is not set, set to the users default
  if snapshotLocation = "" then
    if cloudToken = "" then (some .MissingCloudTokenError, v)
    else setSnapshotLocationFromDefaultWorkspace env cloudToken v
  -- if it is NOT a workspace handle, assume it is a local file location
  else if !env.IsCloudWorkspaceIdentifier snapshotLocation then
    match env.Tildefy snapshotLocation with
    | .error err => (some err, v)
    | .ok snapshotLocation =>
      -- write back to viper
      let v := v.Set .ArgSnapshotLocation (.str snapshotLocation)
      if !env.DirectoryExists snapshotLocation then
        (some (.Errorf ("snapshot location " ++ snapshotLocation ++ " does not exist")), v)
      else (none, v)
  else (none, v)

/-- Source: `ValidateCloudArgs`. -/
def ValidateCloudArgs (env : Env) (v : Viper) : Option Error × Viper :=
  -- only 1 of 'share' and 'snapshot' may be set
  let share := v.GetBool .ArgShare
  let snapshot := v.GetBool .ArgSnapshot
  if share && snapshot then
    (some (.Errorf "only 1 of 'share' and 'snapshot' may be set"), v)
  -- if neither share or snapshot are set, nothing more to do
  else if !share && !snapshot then (none, v)
  else
    let token := v.GetString .ArgCloudToken
    match validateSnapshotLocation env token v with
    | (some err, v) => (some err, v)
    | (none, v) =>
      let requireCloudToken :=
        env.IsCloudWorkspaceIdentifier (v.GetString .ArgWorkspaceDatabase) ||
          env.IsCloudWorkspaceIdentifier (v.GetString .ArgSnapshotLocation)
      if requireCloudToken && token = "" then (some .MissingCloudTokenError, v)
      else if v.GetString .ArgCloudHost = "" then
        (some (.Errorf "to share snapshots, cloud host must be set"), v)
      else (validateSnapshotTags env v, v)

/-- The credential requirement of `ValidateCloudArgs` (source lines 38-45), as
it is evaluated on the store left by snapshot-location resolution. -/
def credentialCheck (env : Env) (token : String) (v : Viper) : Option Error :=
  let requireCloudToken :=
    env.IsCloudWorkspaceIdentifier (v.GetString .ArgWorkspaceDatabase) ||
      env.IsCloudWorkspaceIdentifier (v.GetString .ArgSnapshotLocation)
  if requireCloudToken && token = "" then some .MissingCloudTokenError else none

/-- The host check of `ValidateCloudArgs` (source lines 47-50). -/
def hostCheck (v : Viper) : Option Error :=
  if v.GetString .ArgCloudHost = "" then
    some (.Errorf "to share snapshots, cloud host must be set")
  else none

/-- Exactly one of the `share` and `snapshot` flags is read as true. -/
def exactlyOneMode (v : Viper) : Bool :=
  xor (v.GetBool .ArgShare) (v.GetBool .ArgSnapshot)

/-- Every tag of the list holds exactly one `=` character. -/
def wellFormedTags (tags : List String) : Prop :=
  ∀ t ∈ tags, t.toList.count '=' = 1

instance (tags : List String) : Decidable (wellFormedTags tags) := by
  unfold wellFormedTags; infer_instance

/-- The message built by `validateSnapshotTags` for a tag that does not split
into two segments. -/
def tagFormatMessage (env : Env) : String :=
  "snapshot tags must be specified '--" ++ env.ArgSnapshotTag ++ " key=value'"

/-! ## Sample data -/

/-- A store built from the seven settings the validator reads. -/
def mkStore (share snapshot : Bool) (token host workspaceDatabase snapshotLocation : String)
    (tags : List String) : Viper
  | .ArgShare => .bool share
  | .ArgSnapshot => .bool snapshot
  | .ArgCloudToken => .str token
  | .ArgCloudHost => .str host
  | .ArgWorkspaceDatabase => .str workspaceDatabase
  | .ArgSnapshotLocation => .str snapshotLocation
  | .ArgSnapshotTag => .strs tags
  | _ => .unset

/-- Sample collaborators: the default workspace is `acme/prod`, a leading
`~/snaps` expands under `/home/u`, only `/home/u/snaps` exists, and the cloud
workspace identifiers are `acme/prod` and `acme/dev`. -/
def sampleEnv : Env where
  GetUserWorkspace := fun _ => .ok "acme/prod"
  Tildefy := fun p => if p = "~/snaps" then .ok "/home/u/snaps" else .ok p
  DirectoryExists := fun p => p = "/home/u/snaps"
  IsCloudWorkspaceIdentifier := fun s => s = "acme/prod" || s = "acme/dev"
  ArgSnapshotTag := "snapshot-tag"

/-- Sample collaborators under which no directory exists. -/
def emptyDiskEnv : Env :=
  { sampleEnv with DirectoryExists := fun _ => false }

/-- Sample collaborators whose default workspace `my-workspace` is neither a
cloud workspace identifier nor a directory: nothing is an identifier and no
directory exists. -/
def looseCloudEnv : Env where
  GetUserWorkspace := fun _ => .ok "my-workspace"
  Tildefy := fun p => .ok p
  DirectoryExists := fun _ => false
  IsCloudWorkspaceIdentifier := fun _ => false
  ArgSnapshotTag := "snapshot-tag"

/-- Sample collaborators whose `Tildefy` returns the empty path, which is
reported to exist; the cloud client is the one of `sampleEnv`. -/
def blankPathEnv : Env :=
  { sampleEnv with Tildefy := fun _ => .ok "", DirectoryExists := fun p => p = "" }

/-- Sample collaborators whose cloud client and path expansion both fail, and
under which every directory is reported to exist. -/
def failingEnv : Env :=
  { sampleEnv with
    GetUserWorkspace := fun _ => .error (.External "connection refused")
    Tildefy := fun _ => .error (.External "home directory unknown")
    DirectoryExists := fun _ => true }

/-! ## Lemmas on the store -/

namespace Viper

@[simp] theorem GetString_Set_same (v : Viper) (key : Key) (s : String) :
    (v.Set key (.str s)).GetString key = s := by
  simp [GetString, Set]

theorem Set_other (v : Viper) (key k : Key) (value : Value) (h : k ≠ key) :
    (v.Set key value) k = v k := by
  simp [Set, h]

theorem GetString_Set_other (v : Viper) (key k : Key) (value : Value) (h : k ≠ key) :
    (v.Set key value).GetString k = v.GetString k := by
  simp [GetString, Set, h]

theorem GetStringSlice_Set_other (v : Viper) (key k : Key) (value : Value) (h : k ≠ key) :
    (v.Set key value).GetStringSlice k = v.GetStringSlice k := by
  simp [GetStringSlice, Set, h]

@[simp] theorem GetStringSlice_Set_same (v : Viper) (key : Key) (l : List String) :
    (v.Set key (.strs l)).GetStringSlice key = l := by
  simp [GetStringSlice, Set]

end Viper

/-! ## Lemmas on `Split` and the tag loop -/

theorem splitChars_length (sep : Char) (cs : List Char) :
    (splitChars sep cs).length = cs.count sep + 1 := by
  induction cs with
  | nil => simp [splitChars]
  | cons c cs ih =>
    by_cases hc : c = sep
    · subst hc
      simp [splitChars, ih]
    · have hc2 : ¬ (c == sep) = true := by simpa using hc
      cases hs : splitChars sep cs with
      | nil => simp [hs] at ih
      | cons seg segs =>
        rw [hs] at ih
        simp [splitChars, hc, hs, List.count_cons, hc2] at ih ⊢
        exact ih

theorem Split_length (s : String) (sep : Char) :
    (Split s sep).length = s.toList.count sep + 1 := by
  simp [Split, splitChars_length]

theorem Split_length_eq_two (s : String) :
    (Split s '=').length = 2 ↔ s.toList.count '=' = 1 := by
  rw [Split_length]; omega

theorem validateSnapshotTagsLoop_eq (env : Env) (tags : List String) :
    validateSnapshotTagsLoop env tags =
      if wellFormedTags tags then none else some (.Errorf (tagFormatMessage env)) := by
  induction tags with
  | nil => simp [validateSnapshotTagsLoop, wellFormedTags]
  | cons t rest ih =>
    by_cases ht : t.toList.count '=' = 1
    · have h2 : (Split t '=').length = 2 := (Split_length_eq_two t).2 ht
      by_cases hr : wellFormedTags rest
      · have hall : wellFormedTags (t :: rest) := by
          intro x hx
          rcases List.mem_cons.1 hx with rfl | hx
          · exact ht
          · exact hr x hx
        simp [validateSnapshotTagsLoop, h2, ih, hr, hall]
      · have hall : ¬ wellFormedTags (t :: rest) := fun h =>
          hr (fun x hx => h x (List.mem_cons_of_mem _ hx))
        simp [validateSnapshotTagsLoop, h2, ih, hr, hall]
    · have h2 : ¬ (Split t '=').length = 2 := fun h => ht ((Split_length_eq_two t).1 h)
      have hall : ¬ wellFormedTags (t :: rest) := fun h => ht (h t (List.mem_cons_self _ _))
      simp [validateSnapshotTagsLoop, h2, hall, tagFormatMessage]

theorem validateSnapshotTags_eq (env : Env) (v : Viper) :
    validateSnapshotTags env v =
      if wellFormedTags (v.GetStringSlice .ArgSnapshotTag) then none
      else some (.Errorf (tagFormatMessage env)) := by
  simp [validateSnapshotTags, validateSnapshotTagsLoop_eq]

/-! ## Lemmas on the control flow of `ValidateCloudArgs` -/

theorem validateSnapshotLocation_frame (env : Env) (token : String) (v : Viper) (k : Key)
    (hk : k ≠ .ArgSnapshotLocation) :
    (validateSnapshotLocation env token v).2 k = v k := by
  unfold validateSnapshotLocation setSnapshotLocationFromDefaultWorkspace
  simp only []
  split_ifs <;> try rfl
  · cases env.GetUserWorkspace token <;> simp [Viper.Set_other, hk]
  · cases env.Tildefy (v.GetString .ArgSnapshotLocation) with
    | error e => rfl
    | ok p => simp only []; split_ifs <;> simp [Viper.Set_other, hk]

theorem ValidateCloudArgs_of_exactlyOne (env : Env) (v : Viper) (h : exactlyOneMode v = true) :
    ValidateCloudArgs env v =
      ((validateSnapshotLocation env (v.GetString .ArgCloudToken) v).1 <|>
        credentialCheck env (v.GetString .ArgCloudToken)
          (validateSnapshotLocation env (v.GetString .ArgCloudToken) v).2 <|>
        hostCheck (validateSnapshotLocation env (v.GetString .ArgCloudToken) v).2 <|>
        validateSnapshotTags env (validateSnapshotLocation env (v.GetString .ArgCloudToken) v).2,
       (validateSnapshotLocation env (v.GetString .ArgCloudToken) v).2) := by
  unfold exactlyOneMode at h
  unfold ValidateCloudArgs credentialCheck hostCheck
  rcases hr : validateSnapshotLocation env (v.GetString .ArgCloudToken) v with ⟨r, w⟩
  have tail : (match validateSnapshotLocation env (v.GetString .ArgCloudToken) v with
      | (some err, v) => (some err, v)
      | (none, v_1) =>
        if (env.IsCloudWorkspaceIdentifier (v_1.GetString .ArgWorkspaceDatabase) ||
            env.IsCloudWorkspaceIdentifier (v_1.GetString .ArgSnapshotLocation)) &&
            decide (v.GetString .ArgCloudToken = "") then
          (some Error.MissingCloudTokenError, v_1)
        else if v_1.GetString .ArgCloudHost = "" then
          (some (Error.Errorf "to share snapshots, cloud host must be set"), v_1)
        else (validateSnapshotTags env v_1, v_1)) =
      (r <|>
        (if (env.IsCloudWorkspaceIdentifier (w.GetString .ArgWorkspaceDatabase) ||
            env.IsCloudWorkspaceIdentifier (w.GetString .ArgSnapshotLocation)) &&
            decide (v.GetString .ArgCloudToken = "") then
          some Error.MissingCloudTokenError else none) <|>
        (if w.GetString .ArgCloudHost = "" then
          some (Error.Errorf "to share snapshots, cloud host must be set") else none) <|>
        validateSnapshotTags env w, w) := by
    rw [hr]
    cases r with
    | some e => simp
    | none => simp only []; split_ifs <;> simp
  cases hs : v.GetBool .ArgShare <;> cases hn : v.GetBool .ArgSnapshot
  · simp [hs, hn] at h
  · simpa [hs, hn] using tail
  · simpa [hs, hn] using tail
  · simp [hs, hn] at h

/-! ## Mode checks -/

/-- C1: when `share` and `snapshot` are both true, `ValidateCloudArgs` returns the
conflicting-modes error and the store it leaves is the store it was given, for
every collaborator behaviour and every value of the other settings. -/
theorem ValidateCloudArgs_conflicting_modes (env : Env) (v : Viper)
    (hshare : v.GetBool .ArgShare = true) (hsnapshot : v.GetBool .ArgSnapshot = true) :
    ValidateCloudArgs env v =
      (some (.Errorf "only 1 of 'share' and 'snapshot' may be set"), v) := by
  simp [ValidateCloudArgs, hshare, hsnapshot]

theorem ValidateCloudArgs_conflicting_modes_witness :
    (mkStore true true "" "" "acme/dev" "~/nowhere" ["broken"]).GetBool .ArgShare = true ∧
    (mkStore true true "" "" "acme/dev" "~/nowhere" ["broken"]).GetBool .ArgSnapshot = true ∧
    ValidateCloudArgs sampleEnv (mkStore true true "" "" "acme/dev" "~/nowhere" ["broken"]) =
      (some (.Errorf "only 1 of 'share' and 'snapshot' may be set"),
        mkStore true true "" "" "acme/dev" "~/nowhere" ["broken"]) :=
  ⟨by decide, by decide,
    ValidateCloudArgs_conflicting_modes sampleEnv
      (mkStore true true "" "" "acme/dev" "~/nowhere" ["broken"]) (by decide) (by decide)⟩

/-- C2: when `share` and `snapshot` are both false, `ValidateCloudArgs` returns
success and leaves the whole store as it was: nothing is validated, so an empty
host, malformed tags, an empty token or a missing directory do not matter. -/
theorem ValidateCloudArgs_noop (env : Env) (v : Viper)
    (hshare : v.GetBool .ArgShare = false) (hsnapshot : v.GetBool .ArgSnapshot = false) :
    ValidateCloudArgs env v = (none, v) := by
  simp [ValidateCloudArgs, hshare, hsnapshot]

theorem ValidateCloudArgs_noop_witness :
    (mkStore false false "" "" "acme/dev" "~/nowhere" ["broken"]).GetBool .ArgShare = false ∧
    (mkStore false false "" "" "acme/dev" "~/nowhere" ["broken"]).GetBool .ArgSnapshot = false ∧
    sampleEnv.DirectoryExists "~/nowhere" = false ∧
    ValidateCloudArgs sampleEnv (mkStore false false "" "" "acme/dev" "~/nowhere" ["broken"]) =
      (none, mkStore false false "" "" "acme/dev" "~/nowhere" ["broken"]) :=
  ⟨by decide, by decide, by decide,
    ValidateCloudArgs_noop sampleEnv
      (mkStore false false "" "" "acme/dev" "~/nowhere" ["broken"]) (by decide) (by decide)⟩

/-! ## Order of the checks -/

/-- C3: with exactly one of `share` and `snapshot` true, `ValidateCloudArgs`
returns the error of the first failing step in the order snapshot-location
resolution, credential requirement, host check, tag validation, whatever the
later steps report on the store left by resolution, and it returns success
exactly when none of the four fails. -/
theorem ValidateCloudArgs_first_failure (env : Env) (v : Viper)
    (hmode : exactlyOneMode v = true) :
    (∀ e, (validateSnapshotLocation env (v.GetString .ArgCloudToken) v).1 = some e →
      (ValidateCloudArgs env v).1 = some e) ∧
    ((validateSnapshotLocation env (v.GetString .ArgCloudToken) v).1 = none →
      ∀ e, credentialCheck env (v.GetString .ArgCloudToken)
          (validateSnapshotLocation env (v.GetString .ArgCloudToken) v).2 = some e →
        (ValidateCloudArgs env v).1 = some e) ∧
    ((validateSnapshotLocation env (v.GetString .ArgCloudToken) v).1 = none →
      credentialCheck env (v.GetString .ArgCloudToken)
          (validateSnapshotLocation env (v.GetString .ArgCloudToken) v).2 = none →
      ∀ e, hostCheck (validateSnapshotLocation env (v.GetString .ArgCloudToken) v).2 = some e →
        (ValidateCloudArgs env v).1 = some e) ∧
    ((validateSnapshotLocation env (v.GetString .ArgCloudToken) v).1 = none →
      credentialCheck env (v.GetString .ArgCloudToken)
          (validateSnapshotLocation env (v.GetString .ArgCloudToken) v).2 = none →
      hostCheck (validateSnapshotLocation env (v.GetString .ArgCloudToken) v).2 = none →
      (ValidateCloudArgs env v).1 =
        validateSnapshotTags env (validateSnapshotLocation env (v.GetString .ArgCloudToken) v).2) ∧
    ((ValidateCloudArgs env v).1 = none ↔
      (validateSnapshotLocation env (v.GetString .ArgCloudToken) v).1 = none ∧
      credentialCheck env (v.GetString .ArgCloudToken)
          (validateSnapshotLocation env (v.GetString .ArgCloudToken) v).2 = none ∧
      hostCheck (validateSnapshotLocation env (v.GetString .ArgCloudToken) v).2 = none ∧
      validateSnapshotTags env
          (validateSnapshotLocation env (v.GetString .ArgCloudToken) v).2 = none) := by
  rw [ValidateCloudArgs_of_exactlyOne env v hmode]
  generalize (validateSnapshotLocation env (v.GetString .ArgCloudToken) v).1 = r
  generalize credentialCheck env (v.GetString .ArgCloudToken)
    (validateSnapshotLocation env (v.GetString .ArgCloudToken) v).2 = c
  generalize hostCheck (validateSnapshotLocation env (v.GetString .ArgCloudToken) v).2 = h
  generalize validateSnapshotTags env
    (validateSnapshotLocation env (v.GetString .ArgCloudToken) v).2 = t
  cases r <;> cases c <;> cases h <;> cases t <;> simp

theorem ValidateCloudArgs_first_failure_witness :
    exactlyOneMode (mkStore true false "" "" "acme/dev" "~/nowhere" ["broken"]) = true ∧
    (validateSnapshotLocation sampleEnv "" (mkStore true false "" "" "acme/dev" "~/nowhere" ["broken"])).1 =
      some (.Errorf "snapshot location ~/nowhere does not exist") ∧
    credentialCheck sampleEnv ""
      (validateSnapshotLocation sampleEnv ""
        (mkStore true false "" "" "acme/dev" "~/nowhere" ["broken"])).2 =
      some .MissingCloudTokenError ∧
    (ValidateCloudArgs sampleEnv (mkStore true false "" "" "acme/dev" "~/nowhere" ["broken"])).1 =
      some (.Errorf "snapshot location ~/nowhere does not exist") :=
  ⟨by decide, by decide, by decide,
    (ValidateCloudArgs_first_failure sampleEnv
      (mkStore true false "" "" "acme/dev" "~/nowhere" ["broken"]) (by decide)).1 _ (by decide)⟩

/-! ## Snapshot-location resolution -/

/-- C4: with exactly one of `share` and `snapshot` true, an empty
snapshot-location and an empty token, `ValidateCloudArgs` returns
`MissingCloudTokenError` and leaves the store as it was; the same holds with any
other function in place of `cloud.GetUserWorkspace`, which is not called. -/
theorem ValidateCloudArgs_unset_location_no_token (env : Env) (v : Viper)
    (hmode : exactlyOneMode v = true)
    (hloc : v.GetString .ArgSnapshotLocation = "")
    (htoken : v.GetString .ArgCloudToken = "") :
    ValidateCloudArgs env v = (some .MissingCloudTokenError, v) ∧
    ∀ g : String → Except Error String,
      ValidateCloudArgs { env with GetUserWorkspace := g } v = ValidateCloudArgs env v := by
  have key : ∀ env : Env, ValidateCloudArgs env v = (some .MissingCloudTokenError, v) := by
    intro env
    rw [ValidateCloudArgs_of_exactlyOne env v hmode]
    simp [validateSnapshotLocation, hloc, htoken]
  exact ⟨key env, fun g => by rw [key, key]⟩

theorem ValidateCloudArgs_unset_location_no_token_witness :
    exactlyOneMode (mkStore false true "" "cloud.example" "" "" []) = true ∧
    (mkStore false true "" "cloud.example" "" "" []).GetString .ArgSnapshotLocation = "" ∧
    (mkStore false true "" "cloud.example" "" "" []).GetString .ArgCloudToken = "" ∧
    ValidateCloudArgs sampleEnv (mkStore false true "" "cloud.example" "" "" []) =
      (some .MissingCloudTokenError, mkStore false true "" "cloud.example" "" "" []) :=
  ⟨by decide, by decide, by decide,
    (ValidateCloudArgs_unset_location_no_token sampleEnv
      (mkStore false true "" "cloud.example" "" "" []) (by decide) (by decide) (by decide)).1⟩

/-- C5: with exactly one of `share` and `snapshot` true, an empty
snapshot-location, a non-empty token, a non-empty host and well-formed tags,
if `cloud.GetUserWorkspace` returns the workspace `w` for the token then
`ValidateCloudArgs` succeeds and the snapshot-location of the store it leaves
is `w`. -/
theorem ValidateCloudArgs_default_workspace (env : Env) (v : Viper) (w : String)
    (hmode : exactlyOneMode v = true)
    (hloc : v.GetString .ArgSnapshotLocation = "")
    (htoken : v.GetString .ArgCloudToken ≠ "")
    (hhost : v.GetString .ArgCloudHost ≠ "")
    (htags : wellFormedTags (v.GetStringSlice .ArgSnapshotTag))
    (hw : env.GetUserWorkspace (v.GetString .ArgCloudToken) = .ok w) :
    ValidateCloudArgs env v = (none, v.Set .ArgSnapshotLocation (.str w)) ∧
    (ValidateCloudArgs env v).2.GetString .ArgSnapshotLocation = w := by
  have hr : validateSnapshotLocation env (v.GetString .ArgCloudToken) v =
      (none, v.Set .ArgSnapshotLocation (.str w)) := by
    simp [validateSnapshotLocation, setSnapshotLocationFromDefaultWorkspace, hloc, htoken, hw]
  have hv : ValidateCloudArgs env v = (none, v.Set .ArgSnapshotLocation (.str w)) := by
    rw [ValidateCloudArgs_of_exactlyOne env v hmode, hr]
    simp [credentialCheck, hostCheck, validateSnapshotTags_eq, htoken, hhost, htags,
      Viper.GetString_Set_other, Viper.GetStringSlice_Set_other]
  exact ⟨hv, by rw [hv]; simp⟩

theorem ValidateCloudArgs_default_workspace_witness :
    exactlyOneMode (mkStore false true "tok" "cloud.example" "" "" ["env=prod"]) = true ∧
    sampleEnv.GetUserWorkspace "tok" = .ok "acme/prod" ∧
    (ValidateCloudArgs sampleEnv
      (mkStore false true "tok" "cloud.example" "" "" ["env=prod"])).1 = none ∧
    (ValidateCloudArgs sampleEnv
      (mkStore false true "tok" "cloud.example" "" "" ["env=prod"])).2.GetString
        .ArgSnapshotLocation = "acme/prod" :=
  have h := ValidateCloudArgs_default_workspace sampleEnv
    (mkStore false true "tok" "cloud.example" "" "" ["env=prod"]) "acme/prod"
    (by decide) (by decide) (by decide) (by decide) (by decide) rfl
  ⟨by decide, rfl, by rw [h.1], h.2⟩

/-- C6: with exactly one of `share` and `snapshot` true and a snapshot-location
that is non-empty and not a cloud workspace identifier, if `Tildefy` maps it to
`p` and `DirectoryExists p` holds, then, given a non-empty host, well-formed tags
and a satisfied credential requirement (a non-empty token, or neither the
workspace-database nor `p` a cloud workspace identifier), `ValidateCloudArgs`
succeeds and the snapshot-location of the store it leaves is `p`.  Only the
existence of `p` is asked for, not that of the raw value. -/
theorem ValidateCloudArgs_local_path (env : Env) (v : Viper) (p : String)
    (hmode : exactlyOneMode v = true)
    (hloc : v.GetString .ArgSnapshotLocation ≠ "")
    (hcloud : env.IsCloudWorkspaceIdentifier (v.GetString .ArgSnapshotLocation) = false)
    (htilde : env.Tildefy (v.GetString .ArgSnapshotLocation) = .ok p)
    (hexists : env.DirectoryExists p = true)
    (hhost : v.GetString .ArgCloudHost ≠ "")
    (htags : wellFormedTags (v.GetStringSlice .ArgSnapshotTag))
    (hcred : v.GetString .ArgCloudToken ≠ "" ∨
      (env.IsCloudWorkspaceIdentifier (v.GetString .ArgWorkspaceDatabase) = false ∧
        env.IsCloudWorkspaceIdentifier p = false)) :
    ValidateCloudArgs env v = (none, v.Set .ArgSnapshotLocation (.str p)) ∧
    (ValidateCloudArgs env v).2.GetString .ArgSnapshotLocation = p := by
  have hr : validateSnapshotLocation env (v.GetString .ArgCloudToken) v =
      (none, v.Set .ArgSnapshotLocation (.str p)) := by
    simp [validateSnapshotLocation, hloc, hcloud, htilde, hexists]
  have hv : ValidateCloudArgs env v = (none, v.Set .ArgSnapshotLocation (.str p)) := by
    rw [ValidateCloudArgs_of_exactlyOne env v hmode, hr]
    rcases hcred with htoken | ⟨hwd, hp⟩
    · simp [credentialCheck, hostCheck, validateSnapshotTags_eq, htoken, hhost, htags,
        Viper.GetString_Set_other, Viper.GetStringSlice_Set_other]
    · simp [credentialCheck, hostCheck, validateSnapshotTags_eq, hwd, hp, hhost, htags,
        Viper.GetString_Set_other, Viper.GetStringSlice_Set_other]
  exact ⟨hv, by rw [hv]; simp⟩

theorem ValidateCloudArgs_local_path_witness :
    exactlyOneMode (mkStore false true "" "cloud.example" "" "~/snaps" ["env=prod"]) = true ∧
    sampleEnv.Tildefy "~/snaps" = .ok "/home/u/snaps" ∧
    sampleEnv.DirectoryExists "~/snaps" = false ∧
    sampleEnv.DirectoryExists "/home/u/snaps" = true ∧
    (ValidateCloudArgs sampleEnv
      (mkStore false true "" "cloud.example" "" "~/snaps" ["env=prod"])).1 = none ∧
    (ValidateCloudArgs sampleEnv
      (mkStore false true "" "cloud.example" "" "~/snaps" ["env=prod"])).2.GetString
        .ArgSnapshotLocation = "/home/u/snaps" :=
  have h := ValidateCloudArgs_local_path sampleEnv
    (mkStore false true "" "cloud.example" "" "~/snaps" ["env=prod"]) "/home/u/snaps"
    (by decide) (by decide) (by decide) rfl (by decide) (by decide) (by decide)
    (Or.inr ⟨by decide, by decide⟩)
  ⟨by decide, rfl, by decide, by decide, by rw [h.1], h.2⟩

/-- C7: with exactly one of `share` and `snapshot` true and a snapshot-location
that is non-empty and not a cloud workspace identifier, if `Tildefy` maps it to
`p` and `DirectoryExists p` is false, then `ValidateCloudArgs` fails with the
error whose message is `snapshot location p does not exist`, whatever the token,
host and tags are, and the snapshot-location of the store it leaves is the
normalized `p`. -/
theorem ValidateCloudArgs_location_not_found (env : Env) (v : Viper) (p : String)
    (hmode : exactlyOneMode v = true)
    (hloc : v.GetString .ArgSnapshotLocation ≠ "")
    (hcloud : env.IsCloudWorkspaceIdentifier (v.GetString .ArgSnapshotLocation) = false)
    (htilde : env.Tildefy (v.GetString .ArgSnapshotLocation) = .ok p)
    (hmissing : env.DirectoryExists p = false) :
    ValidateCloudArgs env v =
      (some (.Errorf ("snapshot location " ++ p ++ " does not exist")),
        v.Set .ArgSnapshotLocation (.str p)) ∧
    (ValidateCloudArgs env v).2.GetString .ArgSnapshotLocation = p := by
  have hr : validateSnapshotLocation env (v.GetString .ArgCloudToken) v =
      (some (.Errorf ("snapshot location " ++ p ++ " does not exist")),
        v.Set .ArgSnapshotLocation (.str p)) := by
    simp [validateSnapshotLocation, hloc, hcloud, htilde, hmissing]
  have hv : ValidateCloudArgs env v =
      (some (.Errorf ("snapshot location " ++ p ++ " does not exist")),
        v.Set .ArgSnapshotLocation (.str p)) := by
    rw [ValidateCloudArgs_of_exactlyOne env v hmode, hr]
    simp
  exact ⟨hv, by rw [hv]; simp⟩

theorem ValidateCloudArgs_location_not_found_witness :
    exactlyOneMode (mkStore true false "" "" "acme/dev" "~/snaps" ["broken"]) = true ∧
    emptyDiskEnv.Tildefy "~/snaps" = .ok "/home/u/snaps" ∧
    emptyDiskEnv.DirectoryExists "/home/u/snaps" = false ∧
    (ValidateCloudArgs emptyDiskEnv
      (mkStore true false "" "" "acme/dev" "~/snaps" ["broken"])).1 =
        some (.Errorf "snapshot location /home/u/snaps does not exist") ∧
    (ValidateCloudArgs emptyDiskEnv
      (mkStore true false "" "" "acme/dev" "~/snaps" ["broken"])).2.GetString
        .ArgSnapshotLocation = "/home/u/snaps" :=
  have h := ValidateCloudArgs_location_not_found emptyDiskEnv
    (mkStore true false "" "" "acme/dev" "~/snaps" ["broken"]) "/home/u/snaps"
    (by decide) (by decide) (by decide) rfl (by decide)
  ⟨by decide, rfl, by decide, by rw [h.1]; decide, h.2⟩

/-! ## Credential requirement, host check and tags -/

/-- C8: with exactly one of `share` and `snapshot` true, when snapshot-location
resolution succeeds and the token is empty: if the workspace-database value or
the snapshot-location left by resolution is a cloud workspace identifier,
`ValidateCloudArgs` fails with `MissingCloudTokenError` whatever the host and
tags are; if neither is one, the result is not `MissingCloudTokenError`. -/
theorem ValidateCloudArgs_credential_requirement (env : Env) (v : Viper)
    (hmode : exactlyOneMode v = true)
    (hres : (validateSnapshotLocation env (v.GetString .ArgCloudToken) v).1 = none)
    (htoken : v.GetString .ArgCloudToken = "") :
    ((env.IsCloudWorkspaceIdentifier (v.GetString .ArgWorkspaceDatabase) = true ∨
        env.IsCloudWorkspaceIdentifier
          ((validateSnapshotLocation env (v.GetString .ArgCloudToken) v).2.GetString
            .ArgSnapshotLocation) = true) →
      ValidateCloudArgs env v =
        (some .MissingCloudTokenError,
          (validateSnapshotLocation env (v.GetString .ArgCloudToken) v).2)) ∧
    (env.IsCloudWorkspaceIdentifier (v.GetString .ArgWorkspaceDatabase) = false →
      env.IsCloudWorkspaceIdentifier
          ((validateSnapshotLocation env (v.GetString .ArgCloudToken) v).2.GetString
            .ArgSnapshotLocation) = false →
      (ValidateCloudArgs env v).1 ≠ some .MissingCloudTokenError) := by
  have hwd : (validateSnapshotLocation env (v.GetString .ArgCloudToken) v).2.GetString
      .ArgWorkspaceDatabase = v.GetString .ArgWorkspaceDatabase := by
    simp [Viper.GetString, validateSnapshotLocation_frame]
  rw [ValidateCloudArgs_of_exactlyOne env v hmode, hres]
  generalize validateSnapshotLocation env (v.GetString .ArgCloudToken) v = r at hwd ⊢
  constructor
  · intro h
    rcases h with h | h <;> simp [credentialCheck, hwd, h, htoken]
  · intro h1 h2
    simp only [credentialCheck, hwd, h1, h2, hostCheck, validateSnapshotTags_eq]
    split_ifs <;> simp_all

theorem ValidateCloudArgs_credential_requirement_witness :
    (exactlyOneMode (mkStore true false "" "" "" "acme/prod" ["broken"]) = true ∧
      ValidateCloudArgs sampleEnv (mkStore true false "" "" "" "acme/prod" ["broken"]) =
        (some .MissingCloudTokenError,
          (validateSnapshotLocation sampleEnv
            ((mkStore true false "" "" "" "acme/prod" ["broken"]).GetString .ArgCloudToken)
            (mkStore true false "" "" "" "acme/prod" ["broken"])).2)) ∧
    (exactlyOneMode (mkStore true false "" "" "" "~/snaps" ["broken"]) = true ∧
      (ValidateCloudArgs sampleEnv (mkStore true false "" "" "" "~/snaps" ["broken"])).1 ≠
        some .MissingCloudTokenError) :=
  ⟨⟨by decide,
      (ValidateCloudArgs_credential_requirement sampleEnv
        (mkStore true false "" "" "" "acme/prod" ["broken"])
        (by decide) (by decide) (by decide)).1 (Or.inr (by decide))⟩,
    ⟨by decide,
      (ValidateCloudArgs_credential_requirement sampleEnv
        (mkStore true false "" "" "" "~/snaps" ["broken"])
        (by decide) (by decide) (by decide)).2 (by decide) (by decide)⟩⟩

/-- C9: `validateSnapshotTags` returns success if and only if every tag of the
list holds exactly one `=` character, which is when splitting it on `=` yields
exactly two segments; otherwise it returns the invalid-tag-format error,
wherever in the list the bad tag stands.  The empty list and
`["env=prod", "team=x"]` succeed; `["env=prod", "broken"]` and a list holding
`"a=b=c"` fail. -/
theorem validateSnapshotTags_iff (env : Env) (v : Viper) :
    (validateSnapshotTags env v = none ↔
      ∀ t ∈ v.GetStringSlice .ArgSnapshotTag, t.toList.count '=' = 1) ∧
    (∀ t : String, (Split t '=').length = 2 ↔ t.toList.count '=' = 1) ∧
    (∀ t ∈ v.GetStringSlice .ArgSnapshotTag, t.toList.count '=' ≠ 1 →
      validateSnapshotTags env v =
        some (.Errorf ("snapshot tags must be specified '--" ++ env.ArgSnapshotTag ++
          " key=value'"))) ∧
    (∀ (pre post : List String) (t : String), t.toList.count '=' ≠ 1 →
      validateSnapshotTags env (v.Set .ArgSnapshotTag (.strs (pre ++ t :: post))) =
        some (.Errorf ("snapshot tags must be specified '--" ++ env.ArgSnapshotTag ++
          " key=value'"))) ∧
    validateSnapshotTags env (v.Set .ArgSnapshotTag (.strs [])) = none ∧
    validateSnapshotTags env (v.Set .ArgSnapshotTag (.strs ["env=prod", "team=x"])) = none ∧
    validateSnapshotTags env (v.Set .ArgSnapshotTag (.strs ["env=prod", "broken"])) =
      some (.Errorf ("snapshot tags must be specified '--" ++ env.ArgSnapshotTag ++
        " key=value'")) ∧
    validateSnapshotTags env (v.Set .ArgSnapshotTag (.strs ["env=prod", "a=b=c", "team=x"])) =
      some (.Errorf ("snapshot tags must be specified '--" ++ env.ArgSnapshotTag ++
        " key=value'")) := by
  have hbad : ∀ (w : Viper), (∃ t ∈ w.GetStringSlice .ArgSnapshotTag, t.toList.count '=' ≠ 1) →
      validateSnapshotTags env w = some (.Errorf (tagFormatMessage env)) := by
    intro w ⟨t, ht, hne⟩
    rw [validateSnapshotTags_eq, if_neg]
    exact fun h => hne (h t ht)
  refine ⟨?_, Split_length_eq_two, ?_, ?_, ?_, ?_, ?_, ?_⟩
  · rw [validateSnapshotTags_eq]
    by_cases h : wellFormedTags (v.GetStringSlice .ArgSnapshotTag)
    · rw [if_pos h]
      exact ⟨fun _ => h, fun _ => rfl⟩
    · rw [if_neg h]
      exact ⟨fun h2 => (by cases h2), fun h2 => absurd h2 h⟩
  · intro t ht hne
    exact hbad v ⟨t, ht, hne⟩
  · intro pre post t hne
    exact hbad _ ⟨t, by simp, hne⟩
  · rw [validateSnapshotTags_eq, if_pos]
    simp [wellFormedTags]
  · rw [validateSnapshotTags_eq, if_pos]
    rw [Viper.GetStringSlice_Set_same]
    decide
  · exact hbad _ ⟨"broken", by simp, by decide⟩
  · exact hbad _ ⟨"a=b=c", by simp, by decide⟩

/-- C10: with exactly one of `share` and `snapshot` true, when snapshot-location
resolution succeeds and the credential requirement is satisfied (a non-empty
token, or neither the workspace-database nor the snapshot-location left by
resolution a cloud workspace identifier), an empty host makes `ValidateCloudArgs`
fail with the missing-host error, whatever the tags are. -/
theorem ValidateCloudArgs_missing_host (env : Env) (v : Viper)
    (hmode : exactlyOneMode v = true)
    (hres : (validateSnapshotLocation env (v.GetString .ArgCloudToken) v).1 = none)
    (hcred : v.GetString .ArgCloudToken ≠ "" ∨
      (env.IsCloudWorkspaceIdentifier (v.GetString .ArgWorkspaceDatabase) = false ∧
        env.IsCloudWorkspaceIdentifier
          ((validateSnapshotLocation env (v.GetString .ArgCloudToken) v).2.GetString
            .ArgSnapshotLocation) = false))
    (hhost : v.GetString .ArgCloudHost = "") :
    ValidateCloudArgs env v =
      (some (.Errorf "to share snapshots, cloud host must be set"),
        (validateSnapshotLocation env (v.GetString .ArgCloudToken) v).2) := by
  have hwd : (validateSnapshotLocation env (v.GetString .ArgCloudToken) v).2.GetString
      .ArgWorkspaceDatabase = v.GetString .ArgWorkspaceDatabase := by
    simp [Viper.GetString, validateSnapshotLocation_frame]
  have hh : (validateSnapshotLocation env (v.GetString .ArgCloudToken) v).2.GetString
      .ArgCloudHost = "" := by
    rw [← hhost]
    simp [Viper.GetString, validateSnapshotLocation_frame]
  rw [ValidateCloudArgs_of_exactlyOne env v hmode, hres]
  generalize validateSnapshotLocation env (v.GetString .ArgCloudToken) v = r at hwd hh hcred ⊢
  rcases hcred with htoken | ⟨h1, h2⟩
  · simp [credentialCheck, hostCheck, htoken, hh]
  · simp [credentialCheck, hostCheck, hwd, h1, h2, hh]

theorem ValidateCloudArgs_missing_host_witness :
    exactlyOneMode (mkStore false true "tok" "" "acme/dev" "acme/prod" ["broken", "a=b=c"]) = true ∧
    validateSnapshotTags sampleEnv
      (mkStore false true "tok" "" "acme/dev" "acme/prod" ["broken", "a=b=c"]) ≠ none ∧
    (ValidateCloudArgs sampleEnv
      (mkStore false true "tok" "" "acme/dev" "acme/prod" ["broken", "a=b=c"])).1 =
        some (.Errorf "to share snapshots, cloud host must be set") :=
  ⟨by decide, by decide, by
    rw [ValidateCloudArgs_missing_host sampleEnv
      (mkStore false true "tok" "" "acme/dev" "acme/prod" ["broken", "a=b=c"])
      (by decide) (by decide) (Or.inl (by decide)) (by decide)]⟩

/-! ## Lemmas on snapshot-location resolution -/

theorem validateSnapshotLocation_default (env : Env) (token : String) (v : Viper) (w : String)
    (hloc : v.GetString .ArgSnapshotLocation = "") (htoken : token ≠ "")
    (hw : env.GetUserWorkspace token = .ok w) :
    validateSnapshotLocation env token v = (none, v.Set .ArgSnapshotLocation (.str w)) := by
  simp [validateSnapshotLocation, setSnapshotLocationFromDefaultWorkspace, hloc, htoken, hw]

theorem validateSnapshotLocation_default_error (env : Env) (token : String) (v : Viper)
    (e : Error) (hloc : v.GetString .ArgSnapshotLocation = "") (htoken : token ≠ "")
    (hw : env.GetUserWorkspace token = .error e) :
    validateSnapshotLocation env token v = (some e, v) := by
  simp [validateSnapshotLocation, setSnapshotLocationFromDefaultWorkspace, hloc, htoken, hw]

theorem validateSnapshotLocation_no_token (env : Env) (v : Viper)
    (hloc : v.GetString .ArgSnapshotLocation = "") :
    validateSnapshotLocation env "" v = (some .MissingCloudTokenError, v) := by
  simp [validateSnapshotLocation, hloc]

theorem validateSnapshotLocation_cloud (env : Env) (token : String) (v : Viper)
    (hloc : v.GetString .ArgSnapshotLocation ≠ "")
    (hcloud : env.IsCloudWorkspaceIdentifier (v.GetString .ArgSnapshotLocation) = true) :
    validateSnapshotLocation env token v = (none, v) := by
  simp [validateSnapshotLocation, hloc, hcloud]

theorem validateSnapshotLocation_local (env : Env) (token : String) (v : Viper) (p : String)
    (hloc : v.GetString .ArgSnapshotLocation ≠ "")
    (hcloud : env.IsCloudWorkspaceIdentifier (v.GetString .ArgSnapshotLocation) = false)
    (htilde : env.Tildefy (v.GetString .ArgSnapshotLocation) = .ok p) :
    validateSnapshotLocation env token v =
      (if env.DirectoryExists p = true then none
        else some (.Errorf ("snapshot location " ++ p ++ " does not exist")),
        v.Set .ArgSnapshotLocation (.str p)) := by
  cases hd : env.DirectoryExists p <;>
    simp [validateSnapshotLocation, hloc, hcloud, htilde, hd]

theorem validateSnapshotLocation_tildefy_error (env : Env) (token : String) (v : Viper)
    (e : Error) (hloc : v.GetString .ArgSnapshotLocation ≠ "")
    (hcloud : env.IsCloudWorkspaceIdentifier (v.GetString .ArgSnapshotLocation) = false)
    (htilde : env.Tildefy (v.GetString .ArgSnapshotLocation) = .error e) :
    validateSnapshotLocation env token v = (some e, v) := by
  simp [validateSnapshotLocation, hloc, hcloud, htilde]

/-- The store left by resolution: the input store, or the input store with the
default workspace or the tildefied path written under snapshot-location. -/
theorem validateSnapshotLocation_store (env : Env) (token : String) (v : Viper) :
    (validateSnapshotLocation env token v).2 = v ∨
    (v.GetString .ArgSnapshotLocation = "" ∧ token ≠ "" ∧
      ∃ w, env.GetUserWorkspace token = .ok w ∧
        validateSnapshotLocation env token v = (none, v.Set .ArgSnapshotLocation (.str w))) ∨
    (v.GetString .ArgSnapshotLocation ≠ "" ∧
      env.IsCloudWorkspaceIdentifier (v.GetString .ArgSnapshotLocation) = false ∧
      ∃ p, env.Tildefy (v.GetString .ArgSnapshotLocation) = .ok p ∧
        (validateSnapshotLocation env token v).2 = v.Set .ArgSnapshotLocation (.str p)) := by
  by_cases hloc : v.GetString .ArgSnapshotLocation = ""
  · by_cases htoken : token = ""
    · subst htoken
      left; rw [validateSnapshotLocation_no_token env v hloc]
    · cases hw : env.GetUserWorkspace token with
      | error e =>
        left; rw [validateSnapshotLocation_default_error env token v e hloc htoken hw]
      | ok w =>
        right; left
        exact ⟨hloc, htoken, w, rfl, validateSnapshotLocation_default env token v w hloc htoken hw⟩
  · cases hcloud : env.IsCloudWorkspaceIdentifier (v.GetString .ArgSnapshotLocation) with
    | true => left; rw [validateSnapshotLocation_cloud env token v hloc hcloud]
    | false =>
      cases htilde : env.Tildefy (v.GetString .ArgSnapshotLocation) with
      | error e =>
        left; rw [validateSnapshotLocation_tildefy_error env token v e hloc hcloud htilde]
      | ok p =>
        right; right
        refine ⟨hloc, rfl, p, rfl, ?_⟩
        rw [validateSnapshotLocation_local env token v p hloc hcloud htilde]

/-- The store left by `ValidateCloudArgs`: the input store, or, when exactly one
mode is set, the store left by resolution. -/
theorem ValidateCloudArgs_store (env : Env) (v : Viper) :
    (ValidateCloudArgs env v).2 = v ∨
    (exactlyOneMode v = true ∧
      (ValidateCloudArgs env v).2 =
        (validateSnapshotLocation env (v.GetString .ArgCloudToken) v).2) := by
  cases hmode : exactlyOneMode v with
  | true =>
    right
    exact ⟨rfl, by rw [ValidateCloudArgs_of_exactlyOne env v hmode]⟩
  | false =>
    left
    unfold exactlyOneMode at hmode
    cases hs : v.GetBool .ArgShare <;> cases hn : v.GetBool .ArgSnapshot <;>
      simp [hs, hn] at hmode <;> simp [ValidateCloudArgs, hs, hn]

/-! ## Frame -/

/-- C11: on every path, successful or not, `ValidateCloudArgs` leaves every key
other than snapshot-location as it was, and the store it leaves is the input
store unless the location was empty and the workspace returned by
`cloud.GetUserWorkspace` was written, or the location was a non-empty value that
is not a cloud workspace identifier and its `Tildefy` result was written. -/
theorem ValidateCloudArgs_frame (env : Env) (v : Viper) :
    (∀ k, k ≠ .ArgSnapshotLocation → (ValidateCloudArgs env v).2 k = v k) ∧
    ((ValidateCloudArgs env v).2 = v ∨
      (v.GetString .ArgSnapshotLocation = "" ∧
        ∃ w, env.GetUserWorkspace (v.GetString .ArgCloudToken) = .ok w ∧
          (ValidateCloudArgs env v).2 = v.Set .ArgSnapshotLocation (.str w)) ∨
      (v.GetString .ArgSnapshotLocation ≠ "" ∧
        env.IsCloudWorkspaceIdentifier (v.GetString .ArgSnapshotLocation) = false ∧
        ∃ p, env.Tildefy (v.GetString .ArgSnapshotLocation) = .ok p ∧
          (ValidateCloudArgs env v).2 = v.Set .ArgSnapshotLocation (.str p))) := by
  rcases ValidateCloudArgs_store env v with h | ⟨_, h⟩
  · exact ⟨fun k _ => by rw [h], Or.inl h⟩
  · rw [h]
    refine ⟨fun k hk => validateSnapshotLocation_frame env _ v k hk, ?_⟩
    rcases validateSnapshotLocation_store env (v.GetString .ArgCloudToken) v with
      h1 | ⟨hloc, _, w, hw, h2⟩ | h3
    · exact Or.inl h1
    · exact Or.inr (Or.inl ⟨hloc, w, hw, by rw [h2]⟩)
    · exact Or.inr (Or.inr h3)

/-! ## The location left by resolution -/

/-- C12 as stated fails: with a cloud client that returns `my-workspace`, which
is neither a cloud workspace identifier nor an existing directory, resolution of
an empty location succeeds and leaves `my-workspace` in the store. -/
theorem validateSnapshotLocation_invariant_counterexample :
    ¬ ∀ (env : Env) (token : String) (v : Viper),
      (validateSnapshotLocation env token v).1 = none →
      (validateSnapshotLocation env token v).2.GetString .ArgSnapshotLocation ≠ "" →
      (env.IsCloudWorkspaceIdentifier
          ((validateSnapshotLocation env token v).2.GetString .ArgSnapshotLocation) = true ∨
        env.DirectoryExists
          ((validateSnapshotLocation env token v).2.GetString .ArgSnapshotLocation) = true) := by
  intro h
  have h2 := h looseCloudEnv "tok" (mkStore false true "tok" "cloud.example" "" "" [])
    (by decide) (by decide)
  revert h2
  decide

/-- C12, amended: whenever `validateSnapshotLocation` returns success, the
snapshot-location left in the store, if non-empty, is a cloud workspace
identifier or a path for which `DirectoryExists` holds, provided that, when the
location was empty, the workspace returned by `cloud.GetUserWorkspace` is one of
the two; the returned workspace is stored as it comes. -/
theorem validateSnapshotLocation_invariant (env : Env) (token : String) (v : Viper)
    (hws : v.GetString .ArgSnapshotLocation = "" →
      ∀ w, env.GetUserWorkspace token = .ok w → w ≠ "" →
        (env.IsCloudWorkspaceIdentifier w = true ∨ env.DirectoryExists w = true))
    (hres : (validateSnapshotLocation env token v).1 = none)
    (hne : (validateSnapshotLocation env token v).2.GetString .ArgSnapshotLocation ≠ "") :
    env.IsCloudWorkspaceIdentifier
        ((validateSnapshotLocation env token v).2.GetString .ArgSnapshotLocation) = true ∨
      env.DirectoryExists
        ((validateSnapshotLocation env token v).2.GetString .ArgSnapshotLocation) = true := by
  by_cases hloc : v.GetString .ArgSnapshotLocation = ""
  · by_cases htoken : token = ""
    · subst htoken
      rw [validateSnapshotLocation_no_token env v hloc] at hres
      cases hres
    · cases hw : env.GetUserWorkspace token with
      | error e =>
        rw [validateSnapshotLocation_default_error env token v e hloc htoken hw] at hres
        cases hres
      | ok w =>
        rw [validateSnapshotLocation_default env token v w hloc htoken hw] at hne ⊢
        simp only [Viper.GetString_Set_same] at hne ⊢
        exact hws hloc w hw hne
  · cases hcloud : env.IsCloudWorkspaceIdentifier (v.GetString .ArgSnapshotLocation) with
    | true =>
      rw [validateSnapshotLocation_cloud env token v hloc hcloud]
      exact Or.inl hcloud
    | false =>
      cases htilde : env.Tildefy (v.GetString .ArgSnapshotLocation) with
      | error e =>
        rw [validateSnapshotLocation_tildefy_error env token v e hloc hcloud htilde] at hres
        cases hres
      | ok p =>
        rw [validateSnapshotLocation_local env token v p hloc hcloud htilde] at hres ⊢
        simp only [Viper.GetString_Set_same]
        right
        by_contra hd
        simp [hd] at hres

theorem validateSnapshotLocation_invariant_witness :
    ((validateSnapshotLocation sampleEnv "tok"
        (mkStore false true "tok" "cloud.example" "" "" [])).2.GetString
          .ArgSnapshotLocation = "acme/prod" ∧
      (sampleEnv.IsCloudWorkspaceIdentifier
          ((validateSnapshotLocation sampleEnv "tok"
            (mkStore false true "tok" "cloud.example" "" "" [])).2.GetString
              .ArgSnapshotLocation) = true ∨
        sampleEnv.DirectoryExists
          ((validateSnapshotLocation sampleEnv "tok"
            (mkStore false true "tok" "cloud.example" "" "" [])).2.GetString
              .ArgSnapshotLocation) = true)) ∧
    ((validateSnapshotLocation sampleEnv ""
        (mkStore false true "" "cloud.example" "" "~/snaps" [])).2.GetString
          .ArgSnapshotLocation = "/home/u/snaps" ∧
      (sampleEnv.IsCloudWorkspaceIdentifier
          ((validateSnapshotLocation sampleEnv ""
            (mkStore false true "" "cloud.example" "" "~/snaps" [])).2.GetString
              .ArgSnapshotLocation) = true ∨
        sampleEnv.DirectoryExists
          ((validateSnapshotLocation sampleEnv ""
            (mkStore false true "" "cloud.example" "" "~/snaps" [])).2.GetString
              .ArgSnapshotLocation) = true)) :=
  ⟨⟨by decide,
      validateSnapshotLocation_invariant sampleEnv "tok"
        (mkStore false true "tok" "cloud.example" "" "" [])
        (fun _ w hw _ => by cases hw; exact Or.inl (by decide)) (by decide) (by decide)⟩,
    ⟨by decide,
      validateSnapshotLocation_invariant sampleEnv ""
        (mkStore false true "" "cloud.example" "" "~/snaps" [])
        (fun hloc => absurd hloc (by decide)) (by decide) (by decide)⟩⟩

/-- C13: when the snapshot-location is set to a cloud workspace identifier,
`validateSnapshotLocation` returns success whatever the token is and leaves the
store as it was; the same holds with any other functions in place of
`cloud.GetUserWorkspace`, `Tildefy` and `DirectoryExists`, none of which is
called.  The token is asked for only afterwards: with exactly one mode set and
an empty token, `ValidateCloudArgs` then fails with `MissingCloudTokenError`. -/
theorem validateSnapshotLocation_cloud_handle (env : Env) (token : String) (v : Viper)
    (hmode : exactlyOneMode v = true)
    (hloc : v.GetString .ArgSnapshotLocation ≠ "")
    (hcloud : env.IsCloudWorkspaceIdentifier (v.GetString .ArgSnapshotLocation) = true) :
    validateSnapshotLocation env token v = (none, v) ∧
    (∀ (g t : String → Except Error String) (d : String → Bool),
      validateSnapshotLocation
        { env with GetUserWorkspace := g, Tildefy := t, DirectoryExists := d } token v =
          validateSnapshotLocation env token v) ∧
    (v.GetString .ArgCloudToken = "" →
      ValidateCloudArgs env v = (some .MissingCloudTokenError, v)) := by
  refine ⟨validateSnapshotLocation_cloud env token v hloc hcloud, ?_, ?_⟩
  · intro g t d
    rw [validateSnapshotLocation_cloud env token v hloc hcloud]
    exact validateSnapshotLocation_cloud _ token v hloc hcloud
  · intro htoken
    rw [ValidateCloudArgs_of_exactlyOne env v hmode,
      validateSnapshotLocation_cloud env _ v hloc hcloud]
    simp [credentialCheck, hcloud, htoken]

theorem validateSnapshotLocation_cloud_handle_witness :
    exactlyOneMode (mkStore true false "" "cloud.example" "" "acme/prod" []) = true ∧
    sampleEnv.IsCloudWorkspaceIdentifier
      ((mkStore true false "" "cloud.example" "" "acme/prod" []).GetString
        .ArgSnapshotLocation) = true ∧
    sampleEnv.DirectoryExists "acme/prod" = false ∧
    validateSnapshotLocation sampleEnv ""
        (mkStore true false "" "cloud.example" "" "acme/prod" []) =
      (none, mkStore true false "" "cloud.example" "" "acme/prod" []) ∧
    ValidateCloudArgs sampleEnv (mkStore true false "" "cloud.example" "" "acme/prod" []) =
      (some .MissingCloudTokenError, mkStore true false "" "cloud.example" "" "acme/prod" []) :=
  have h := validateSnapshotLocation_cloud_handle sampleEnv ""
    (mkStore true false "" "cloud.example" "" "acme/prod" [])
    (by decide) (by decide) (by decide)
  ⟨by decide, by decide, by decide, h.1, h.2.2 (by decide)⟩

/-! ## Later failures and collaborator errors -/

/-- The result of `ValidateCloudArgs` when resolution succeeded after writing
`x` under snapshot-location, with the later checks read off the input store. -/
theorem ValidateCloudArgs_of_written (env : Env) (v : Viper) (x : String)
    (hmode : exactlyOneMode v = true)
    (hr : validateSnapshotLocation env (v.GetString .ArgCloudToken) v =
      (none, v.Set .ArgSnapshotLocation (.str x))) :
    ValidateCloudArgs env v =
      ((if (env.IsCloudWorkspaceIdentifier (v.GetString .ArgWorkspaceDatabase) ||
            env.IsCloudWorkspaceIdentifier x) && decide (v.GetString .ArgCloudToken = "")
          then some Error.MissingCloudTokenError else none) <|>
        hostCheck v <|> validateSnapshotTags env v,
        v.Set .ArgSnapshotLocation (.str x)) := by
  rw [ValidateCloudArgs_of_exactlyOne env v hmode, hr]
  simp [credentialCheck, hostCheck, validateSnapshotTags, Viper.GetString_Set_other,
    Viper.GetStringSlice_Set_other]

/-- C14: what resolution wrote stays written when a later step fails.  With
exactly one mode set: if the location is a non-empty value that is not a cloud
workspace identifier and `Tildefy` maps it to an existing directory `p`, the
store left holds `p`, and an empty token with a cloud workspace-database gives
`MissingCloudTokenError`, an empty host (credential requirement satisfied) the
host error, a malformed tag (credential and host passing) the tag error; if the
location was empty and defaulted to the workspace `w`, the store left holds `w`
when the host check or the tag validation fails. -/
theorem ValidateCloudArgs_no_rollback (env : Env) (v : Viper)
    (hmode : exactlyOneMode v = true) :
    (∀ p, v.GetString .ArgSnapshotLocation ≠ "" →
      env.IsCloudWorkspaceIdentifier (v.GetString .ArgSnapshotLocation) = false →
      env.Tildefy (v.GetString .ArgSnapshotLocation) = .ok p →
      env.DirectoryExists p = true →
      (ValidateCloudArgs env v).2 = v.Set .ArgSnapshotLocation (.str p) ∧
      (ValidateCloudArgs env v).2.GetString .ArgSnapshotLocation = p ∧
      (v.GetString .ArgCloudToken = "" →
        env.IsCloudWorkspaceIdentifier (v.GetString .ArgWorkspaceDatabase) = true →
        (ValidateCloudArgs env v).1 = some .MissingCloudTokenError) ∧
      ((v.GetString .ArgCloudToken ≠ "" ∨
          (env.IsCloudWorkspaceIdentifier (v.GetString .ArgWorkspaceDatabase) = false ∧
            env.IsCloudWorkspaceIdentifier p = false)) →
        v.GetString .ArgCloudHost = "" →
        (ValidateCloudArgs env v).1 =
          some (.Errorf "to share snapshots, cloud host must be set")) ∧
      ((v.GetString .ArgCloudToken ≠ "" ∨
          (env.IsCloudWorkspaceIdentifier (v.GetString .ArgWorkspaceDatabase) = false ∧
            env.IsCloudWorkspaceIdentifier p = false)) →
        v.GetString .ArgCloudHost ≠ "" →
        ¬ wellFormedTags (v.GetStringSlice .ArgSnapshotTag) →
        (ValidateCloudArgs env v).1 =
          some (.Errorf ("snapshot tags must be specified '--" ++ env.ArgSnapshotTag ++
            " key=value'")))) ∧
    (∀ w, v.GetString .ArgSnapshotLocation = "" →
      v.GetString .ArgCloudToken ≠ "" →
      env.GetUserWorkspace (v.GetString .ArgCloudToken) = .ok w →
      (ValidateCloudArgs env v).2 = v.Set .ArgSnapshotLocation (.str w) ∧
      (ValidateCloudArgs env v).2.GetString .ArgSnapshotLocation = w ∧
      (v.GetString .ArgCloudHost = "" →
        (ValidateCloudArgs env v).1 =
          some (.Errorf "to share snapshots, cloud host must be set")) ∧
      (v.GetString .ArgCloudHost ≠ "" →
        ¬ wellFormedTags (v.GetStringSlice .ArgSnapshotTag) →
        (ValidateCloudArgs env v).1 =
          some (.Errorf ("snapshot tags must be specified '--" ++ env.ArgSnapshotTag ++
            " key=value'")))) := by
  constructor
  · intro p hloc hcloud htilde hexists
    have hr : validateSnapshotLocation env (v.GetString .ArgCloudToken) v =
        (none, v.Set .ArgSnapshotLocation (.str p)) := by
      rw [validateSnapshotLocation_local env _ v p hloc hcloud htilde, if_pos hexists]
    rw [ValidateCloudArgs_of_written env v p hmode hr]
    refine ⟨rfl, by simp, ?_, ?_, ?_⟩
    · intro htoken hwd
      simp [htoken, hwd]
    · intro hcred hhost
      rcases hcred with htoken | ⟨hwd, hp⟩
      · simp [htoken, hostCheck, hhost]
      · simp [hwd, hp, hostCheck, hhost]
    · intro hcred hhost htags
      rcases hcred with htoken | ⟨hwd, hp⟩
      · simp [htoken, hostCheck, hhost, validateSnapshotTags_eq, htags, tagFormatMessage]
      · simp [hwd, hp, hostCheck, hhost, validateSnapshotTags_eq, htags, tagFormatMessage]
  · intro w hloc htoken hw
    rw [ValidateCloudArgs_of_written env v w hmode
      (validateSnapshotLocation_default env _ v w hloc htoken hw)]
    refine ⟨rfl, by simp, ?_, ?_⟩
    · intro hhost
      simp [htoken, hostCheck, hhost]
    · intro hhost htags
      simp [htoken, hostCheck, hhost, validateSnapshotTags_eq, htags, tagFormatMessage]

theorem ValidateCloudArgs_no_rollback_witness :
    (exactlyOneMode (mkStore false true "" "cloud.example" "acme/dev" "~/snaps" []) = true ∧
      (ValidateCloudArgs sampleEnv
        (mkStore false true "" "cloud.example" "acme/dev" "~/snaps" [])).2.GetString
          .ArgSnapshotLocation = "/home/u/snaps" ∧
      (ValidateCloudArgs sampleEnv
        (mkStore false true "" "cloud.example" "acme/dev" "~/snaps" [])).1 =
          some .MissingCloudTokenError) ∧
    (exactlyOneMode (mkStore false true "tok" "" "" "" ["broken"]) = true ∧
      (ValidateCloudArgs sampleEnv
        (mkStore false true "tok" "" "" "" ["broken"])).2.GetString
          .ArgSnapshotLocation = "acme/prod" ∧
      (ValidateCloudArgs sampleEnv (mkStore false true "tok" "" "" "" ["broken"])).1 =
        some (.Errorf "to share snapshots, cloud host must be set")) :=
  have h1 := (ValidateCloudArgs_no_rollback sampleEnv
    (mkStore false true "" "cloud.example" "acme/dev" "~/snaps" []) (by decide)).1
    "/home/u/snaps" (by decide) (by decide) rfl (by decide)
  have h2 := (ValidateCloudArgs_no_rollback sampleEnv
    (mkStore false true "tok" "" "" "" ["broken"]) (by decide)).2
    "acme/prod" (by decide) (by decide) rfl
  ⟨⟨by decide, h1.2.1, h1.2.2.1 (by decide) (by decide)⟩,
    ⟨by decide, h2.2.1, h2.2.2.1 (by decide)⟩⟩

/-- C15: with exactly one mode set, an empty snapshot-location and a non-empty
token, if `cloud.GetUserWorkspace` fails with `e` then `ValidateCloudArgs` fails
with `e` itself and leaves the store, snapshot-location included, as it was. -/
theorem ValidateCloudArgs_cloud_client_error (env : Env) (v : Viper) (e : Error)
    (hmode : exactlyOneMode v = true)
    (hloc : v.GetString .ArgSnapshotLocation = "")
    (htoken : v.GetString .ArgCloudToken ≠ "")
    (hw : env.GetUserWorkspace (v.GetString .ArgCloudToken) = .error e) :
    ValidateCloudArgs env v = (some e, v) := by
  rw [ValidateCloudArgs_of_exactlyOne env v hmode,
    validateSnapshotLocation_default_error env _ v e hloc htoken hw]
  simp

/-- C16: with exactly one mode set and a snapshot-location that is non-empty and
not a cloud workspace identifier, if `Tildefy` fails with `e` then
`ValidateCloudArgs` fails with `e` itself and leaves the store as it was, the
raw location included; the same holds with any other function in place of
`DirectoryExists`, which is not called. -/
theorem ValidateCloudArgs_tildefy_error (env : Env) (v : Viper) (e : Error)
    (hmode : exactlyOneMode v = true)
    (hloc : v.GetString .ArgSnapshotLocation ≠ "")
    (hcloud : env.IsCloudWorkspaceIdentifier (v.GetString .ArgSnapshotLocation) = false)
    (htilde : env.Tildefy (v.GetString .ArgSnapshotLocation) = .error e) :
    ValidateCloudArgs env v = (some e, v) ∧
    ∀ d : String → Bool,
      ValidateCloudArgs { env with DirectoryExists := d } v = ValidateCloudArgs env v := by
  have key : ∀ env2 : Env,
      env2.IsCloudWorkspaceIdentifier (v.GetString .ArgSnapshotLocation) = false →
      env2.Tildefy (v.GetString .ArgSnapshotLocation) = .error e →
      ValidateCloudArgs env2 v = (some e, v) := by
    intro env2 h1 h2
    rw [ValidateCloudArgs_of_exactlyOne env2 v hmode,
      validateSnapshotLocation_tildefy_error env2 _ v e hloc h1 h2]
    simp
  refine ⟨key env hcloud htilde, fun d => ?_⟩
  rw [key env hcloud htilde]
  exact key _ hcloud htilde

theorem ValidateCloudArgs_cloud_client_error_witness :
    exactlyOneMode (mkStore true false "tok" "cloud.example" "" "" []) = true ∧
    failingEnv.GetUserWorkspace "tok" = .error (.External "connection refused") ∧
    ValidateCloudArgs failingEnv (mkStore true false "tok" "cloud.example" "" "" []) =
      (some (.External "connection refused"),
        mkStore true false "tok" "cloud.example" "" "" []) :=
  ⟨by decide, rfl,
    ValidateCloudArgs_cloud_client_error failingEnv
      (mkStore true false "tok" "cloud.example" "" "" []) (.External "connection refused")
      (by decide) (by decide) (by decide) rfl⟩

theorem ValidateCloudArgs_tildefy_error_witness :
    exactlyOneMode (mkStore true false "tok" "cloud.example" "" "~/snaps" []) = true ∧
    failingEnv.Tildefy "~/snaps" = .error (.External "home directory unknown") ∧
    ValidateCloudArgs failingEnv (mkStore true false "tok" "cloud.example" "" "~/snaps" []) =
      (some (.External "home directory unknown"),
        mkStore true false "tok" "cloud.example" "" "~/snaps" []) :=
  ⟨by decide, rfl,
    (ValidateCloudArgs_tildefy_error failingEnv
      (mkStore true false "tok" "cloud.example" "" "~/snaps" [])
      (.External "home directory unknown") (by decide) (by decide) (by decide) rfl).1⟩

/-! ## The conflicting-modes message -/

/-- C17 as stated fails: with both modes set the error returned is not the one
whose message reads `only one of 'share' and 'snapshot' may be set`. -/
theorem ValidateCloudArgs_conflict_message_counterexample :
    ¬ ∀ (env : Env) (v : Viper),
      v.GetBool .ArgShare = true → v.GetBool .ArgSnapshot = true →
      (ValidateCloudArgs env v).1 =
        some (.Errorf "only one of 'share' and 'snapshot' may be set") := by
  intro h
  have h2 := h sampleEnv (mkStore true true "tok" "cloud.example" "" "" [])
    (by decide) (by decide)
  revert h2
  decide

/-- C17, amended: when both `share` and `snapshot` are true, the error returned
by `ValidateCloudArgs` carries the message
`only 1 of 'share' and 'snapshot' may be set`. -/
theorem ValidateCloudArgs_conflict_message (env : Env) (v : Viper)
    (hshare : v.GetBool .ArgShare = true) (hsnapshot : v.GetBool .ArgSnapshot = true) :
    (ValidateCloudArgs env v).1 =
      some (.Errorf "only 1 of 'share' and 'snapshot' may be set") := by
  simp [ValidateCloudArgs, hshare, hsnapshot]

theorem ValidateCloudArgs_conflict_message_witness :
    (mkStore true true "tok" "cloud.example" "" "" []).GetBool .ArgShare = true ∧
    (mkStore true true "tok" "cloud.example" "" "" []).GetBool .ArgSnapshot = true ∧
    (ValidateCloudArgs sampleEnv (mkStore true true "tok" "cloud.example" "" "" [])).1 =
      some (.Errorf "only 1 of 'share' and 'snapshot' may be set") :=
  ⟨by decide, by decide,
    ValidateCloudArgs_conflict_message sampleEnv
      (mkStore true true "tok" "cloud.example" "" "" []) (by decide) (by decide)⟩

/-! ## Success needs a credential for a cloud destination -/

/-- What a successful run with exactly one mode set went through. -/
theorem ValidateCloudArgs_success (env : Env) (v : Viper) (hmode : exactlyOneMode v = true)
    (hok : (ValidateCloudArgs env v).1 = none) :
    (validateSnapshotLocation env (v.GetString .ArgCloudToken) v).1 = none ∧
    credentialCheck env (v.GetString .ArgCloudToken)
      (validateSnapshotLocation env (v.GetString .ArgCloudToken) v).2 = none ∧
    hostCheck (validateSnapshotLocation env (v.GetString .ArgCloudToken) v).2 = none ∧
    validateSnapshotTags env
      (validateSnapshotLocation env (v.GetString .ArgCloudToken) v).2 = none ∧
    (ValidateCloudArgs env v).2 =
      (validateSnapshotLocation env (v.GetString .ArgCloudToken) v).2 := by
  rw [ValidateCloudArgs_of_exactlyOne env v hmode] at hok ⊢
  revert hok
  generalize (validateSnapshotLocation env (v.GetString .ArgCloudToken) v).1 = r
  generalize credentialCheck env (v.GetString .ArgCloudToken)
    (validateSnapshotLocation env (v.GetString .ArgCloudToken) v).2 = c
  generalize hostCheck (validateSnapshotLocation env (v.GetString .ArgCloudToken) v).2 = h
  generalize validateSnapshotTags env
    (validateSnapshotLocation env (v.GetString .ArgCloudToken) v).2 = t
  cases r <;> cases c <;> cases h <;> cases t <;> simp

/-- C18: with exactly one mode set, if `ValidateCloudArgs` returns success and
the snapshot-location it leaves, or the workspace-database value, is a cloud
workspace identifier, then the token is non-empty; and if the location was empty
before a successful run, the token is non-empty. -/
theorem ValidateCloudArgs_success_has_token (env : Env) (v : Viper)
    (hmode : exactlyOneMode v = true)
    (hok : (ValidateCloudArgs env v).1 = none) :
    ((env.IsCloudWorkspaceIdentifier
          ((ValidateCloudArgs env v).2.GetString .ArgSnapshotLocation) = true ∨
        env.IsCloudWorkspaceIdentifier (v.GetString .ArgWorkspaceDatabase) = true) →
      v.GetString .ArgCloudToken ≠ "") ∧
    (v.GetString .ArgSnapshotLocation = "" → v.GetString .ArgCloudToken ≠ "") := by
  obtain ⟨hres, hcred, _, _, hstore⟩ := ValidateCloudArgs_success env v hmode hok
  have hwd : (validateSnapshotLocation env (v.GetString .ArgCloudToken) v).2.GetString
      .ArgWorkspaceDatabase = v.GetString .ArgWorkspaceDatabase := by
    simp [Viper.GetString, validateSnapshotLocation_frame]
  constructor
  · intro hcloud htoken
    rw [hstore] at hcloud
    rw [credentialCheck, hwd] at hcred
    generalize validateSnapshotLocation env (v.GetString .ArgCloudToken) v = r at hcloud hcred
    rcases hcloud with h | h <;> simp [h, htoken] at hcred
  · intro hloc htoken
    rw [htoken, validateSnapshotLocation_no_token env v hloc] at hres
    cases hres

theorem ValidateCloudArgs_success_has_token_witness :
    exactlyOneMode (mkStore false true "tok" "cloud.example" "" "" ["env=prod"]) = true ∧
    (ValidateCloudArgs sampleEnv
      (mkStore false true "tok" "cloud.example" "" "" ["env=prod"])).1 = none ∧
    sampleEnv.IsCloudWorkspaceIdentifier
      ((ValidateCloudArgs sampleEnv
        (mkStore false true "tok" "cloud.example" "" "" ["env=prod"])).2.GetString
          .ArgSnapshotLocation) = true ∧
    (mkStore false true "tok" "cloud.example" "" "" ["env=prod"]).GetString
      .ArgCloudToken ≠ "" :=
  ⟨by decide, by decide, by decide,
    (ValidateCloudArgs_success_has_token sampleEnv
      (mkStore false true "tok" "cloud.example" "" "" ["env=prod"])
      (by decide) (by decide)).1 (Or.inl (by decide))⟩

/-! ## The two modes -/

theorem validateSnapshotLocation_congr (env : Env) (token : String) (v1 v2 : Viper)
    (hloc : v1 .ArgSnapshotLocation = v2 .ArgSnapshotLocation) :
    (validateSnapshotLocation env token v1).1 = (validateSnapshotLocation env token v2).1 ∧
    (validateSnapshotLocation env token v1).2 .ArgSnapshotLocation =
      (validateSnapshotLocation env token v2).2 .ArgSnapshotLocation := by
  have hs : v1.GetString .ArgSnapshotLocation = v2.GetString .ArgSnapshotLocation := by
    simp [Viper.GetString, hloc]
  by_cases h0 : v2.GetString .ArgSnapshotLocation = ""
  · by_cases htoken : token = ""
    · subst htoken
      rw [validateSnapshotLocation_no_token env v1 (hs.trans h0),
        validateSnapshotLocation_no_token env v2 h0]
      exact ⟨rfl, hloc⟩
    · cases hw : env.GetUserWorkspace token with
      | error e =>
        rw [validateSnapshotLocation_default_error env token v1 e (hs.trans h0) htoken hw,
          validateSnapshotLocation_default_error env token v2 e h0 htoken hw]
        exact ⟨rfl, hloc⟩
      | ok w =>
        rw [validateSnapshotLocation_default env token v1 w (hs.trans h0) htoken hw,
          validateSnapshotLocation_default env token v2 w h0 htoken hw]
        simp [Viper.Set]
  · have h1 : v1.GetString .ArgSnapshotLocation ≠ "" := by rw [hs]; exact h0
    cases hcloud : env.IsCloudWorkspaceIdentifier (v2.GetString .ArgSnapshotLocation) with
    | true =>
      rw [validateSnapshotLocation_cloud env token v1 h1 (by rw [hs]; exact hcloud),
        validateSnapshotLocation_cloud env token v2 h0 hcloud]
      exact ⟨rfl, hloc⟩
    | false =>
      cases htilde : env.Tildefy (v2.GetString .ArgSnapshotLocation) with
      | error e =>
        rw [validateSnapshotLocation_tildefy_error env token v1 e h1 (by rw [hs]; exact hcloud)
            (by rw [hs]; exact htilde),
          validateSnapshotLocation_tildefy_error env token v2 e h0 hcloud htilde]
        exact ⟨rfl, hloc⟩
      | ok p =>
        rw [validateSnapshotLocation_local env token v1 p h1 (by rw [hs]; exact hcloud)
            (by rw [hs]; exact htilde),
          validateSnapshotLocation_local env token v2 p h0 hcloud htilde]
        simp [Viper.Set]

/-- C19: two stores that agree on every key other than the two mode flags, one
with only `share` read as true and the other with only `snapshot` read as true,
give the same error result and leave the same value under every key other than
the two flags, the snapshot-location in particular. -/
theorem ValidateCloudArgs_mode_symmetry (env : Env) (v1 v2 : Viper)
    (h1s : v1.GetBool .ArgShare = true) (h1n : v1.GetBool .ArgSnapshot = false)
    (h2s : v2.GetBool .ArgShare = false) (h2n : v2.GetBool .ArgSnapshot = true)
    (hsame : ∀ k, k ≠ .ArgShare → k ≠ .ArgSnapshot → v1 k = v2 k) :
    (ValidateCloudArgs env v1).1 = (ValidateCloudArgs env v2).1 ∧
    (ValidateCloudArgs env v1).2.GetString .ArgSnapshotLocation =
      (ValidateCloudArgs env v2).2.GetString .ArgSnapshotLocation ∧
    (∀ k, k ≠ .ArgShare → k ≠ .ArgSnapshot →
      (ValidateCloudArgs env v1).2 k = (ValidateCloudArgs env v2).2 k) := by
  have hm1 : exactlyOneMode v1 = true := by simp [exactlyOneMode, h1s, h1n]
  have hm2 : exactlyOneMode v2 = true := by simp [exactlyOneMode, h2s, h2n]
  have htok : v1.GetString .ArgCloudToken = v2.GetString .ArgCloudToken := by
    simp [Viper.GetString, hsame .ArgCloudToken (by decide) (by decide)]
  obtain ⟨hr, hl⟩ := validateSnapshotLocation_congr env (v2.GetString .ArgCloudToken) v1 v2
    (hsame .ArgSnapshotLocation (by decide) (by decide))
  have hkeys : ∀ k, k ≠ .ArgShare → k ≠ .ArgSnapshot →
      (validateSnapshotLocation env (v2.GetString .ArgCloudToken) v1).2 k =
        (validateSnapshotLocation env (v2.GetString .ArgCloudToken) v2).2 k := by
    intro k hk1 hk2
    by_cases hk : k = .ArgSnapshotLocation
    · subst hk; exact hl
    · rw [validateSnapshotLocation_frame env _ v1 k hk,
        validateSnapshotLocation_frame env _ v2 k hk]
      exact hsame k hk1 hk2
  rw [ValidateCloudArgs_of_exactlyOne env v1 hm1, ValidateCloudArgs_of_exactlyOne env v2 hm2,
    htok]
  generalize v2.GetString .ArgCloudToken = t at hr hkeys ⊢
  generalize validateSnapshotLocation env t v1 = r1 at hr hkeys ⊢
  generalize validateSnapshotLocation env t v2 = r2 at hr hkeys ⊢
  refine ⟨?_, ?_, hkeys⟩
  · simp only [hr, credentialCheck, hostCheck, validateSnapshotTags, Viper.GetString,
      Viper.GetStringSlice,
      hkeys .ArgWorkspaceDatabase (by decide) (by decide),
      hkeys .ArgSnapshotLocation (by decide) (by decide),
      hkeys .ArgCloudHost (by decide) (by decide),
      hkeys .ArgSnapshotTag (by decide) (by decide)]
  · simp only [Viper.GetString, hkeys .ArgSnapshotLocation (by decide) (by decide)]

theorem ValidateCloudArgs_mode_symmetry_witness :
    (ValidateCloudArgs sampleEnv (mkStore true false "" "" "acme/dev" "~/snaps" ["a"])).1 =
      (ValidateCloudArgs sampleEnv (mkStore false true "" "" "acme/dev" "~/snaps" ["a"])).1 ∧
    (ValidateCloudArgs sampleEnv
      (mkStore true false "" "" "acme/dev" "~/snaps" ["a"])).2.GetString
        .ArgSnapshotLocation =
      (ValidateCloudArgs sampleEnv
        (mkStore false true "" "" "acme/dev" "~/snaps" ["a"])).2.GetString
          .ArgSnapshotLocation :=
  have h := ValidateCloudArgs_mode_symmetry sampleEnv
    (mkStore true false "" "" "acme/dev" "~/snaps" ["a"])
    (mkStore false true "" "" "acme/dev" "~/snaps" ["a"])
    (by decide) (by decide) (by decide) (by decide)
    (fun k hk1 hk2 => by cases k <;> first | rfl | exact absurd rfl hk1 | exact absurd rfl hk2)
  ⟨h.1, h.2.1⟩

/-! ## Running the validator twice -/

theorem Viper.Set_Set (v : Viper) (key : Key) (value : Value) :
    (v.Set key value).Set key value = v.Set key value := by
  funext k
  simp only [Viper.Set]
  split_ifs <;> rfl

theorem ValidateCloudArgs_of_not_exactlyOne (env : Env) (v : Viper)
    (hmode : exactlyOneMode v = false) : (ValidateCloudArgs env v).2 = v := by
  unfold exactlyOneMode at hmode
  cases hs : v.GetBool .ArgShare <;> cases hn : v.GetBool .ArgSnapshot <;>
    simp [hs, hn] at hmode <;> simp [ValidateCloudArgs, hs, hn]

/-- Resolution run on the store a successful resolution left succeeds and
changes nothing, when `Tildefy` fixes its own outputs and maps no non-empty path
to the empty one, and the cloud client returns cloud workspace identifiers. -/
theorem validateSnapshotLocation_twice (env : Env) (token : String) (v : Viper)
    (hidem : ∀ s p, env.Tildefy s = .ok p → env.Tildefy p = .ok p)
    (hws : ∀ t w, env.GetUserWorkspace t = .ok w → env.IsCloudWorkspaceIdentifier w = true)
    (hne : ∀ s p, s ≠ "" → env.Tildefy s = .ok p → p ≠ "")
    (hres : (validateSnapshotLocation env token v).1 = none) :
    validateSnapshotLocation env token (validateSnapshotLocation env token v).2 =
      (none, (validateSnapshotLocation env token v).2) := by
  by_cases hloc : v.GetString .ArgSnapshotLocation = ""
  · by_cases htoken : token = ""
    · subst htoken
      rw [validateSnapshotLocation_no_token env v hloc] at hres
      cases hres
    · cases hw : env.GetUserWorkspace token with
      | error e =>
        rw [validateSnapshotLocation_default_error env token v e hloc htoken hw] at hres
        cases hres
      | ok w =>
        rw [validateSnapshotLocation_default env token v w hloc htoken hw]
        by_cases hw0 : w = ""
        · rw [validateSnapshotLocation_default env token _ w (by simp [hw0]) htoken hw,
            Viper.Set_Set]
        · exact validateSnapshotLocation_cloud env token _ (by simpa using hw0)
            (by simpa using hws token w hw)
  · cases hcloud : env.IsCloudWorkspaceIdentifier (v.GetString .ArgSnapshotLocation) with
    | true =>
      rw [validateSnapshotLocation_cloud env token v hloc hcloud]
      exact validateSnapshotLocation_cloud env token v hloc hcloud
    | false =>
      cases htilde : env.Tildefy (v.GetString .ArgSnapshotLocation) with
      | error e =>
        rw [validateSnapshotLocation_tildefy_error env token v e hloc hcloud htilde] at hres
        cases hres
      | ok p =>
        rw [validateSnapshotLocation_local env token v p hloc hcloud htilde] at hres ⊢
        have hd : env.DirectoryExists p = true := by
          by_contra hd
          simp [hd] at hres
        have hp : p ≠ "" := hne _ p hloc htilde
        simp only []
        cases hpc : env.IsCloudWorkspaceIdentifier p with
        | true =>
          exact validateSnapshotLocation_cloud env token _ (by simpa using hp)
            (by simpa using hpc)
        | false =>
          rw [validateSnapshotLocation_local env token _ p (by simpa using hp)
            (by simpa using hpc) (by simpa using hidem _ p htilde), Viper.Set_Set, if_pos hd]

/-- C20 as stated fails: a `Tildefy` that returns the empty path (and so fixes
its own output), reported to exist, makes the first run succeed and leave an
empty snapshot-location; the second run then takes it for unset and, the token
being empty, fails. -/
theorem ValidateCloudArgs_idempotent_counterexample :
    ¬ ∀ (env : Env) (v : Viper),
      (∀ s p, env.Tildefy s = .ok p → env.Tildefy p = .ok p) →
      (∀ t w, env.GetUserWorkspace t = .ok w → env.IsCloudWorkspaceIdentifier w = true) →
      (ValidateCloudArgs env v).1 = none →
      ValidateCloudArgs env (ValidateCloudArgs env v).2 =
        (none, (ValidateCloudArgs env v).2) := by
  intro h
  have h2 := h blankPathEnv (mkStore false true "" "cloud.example" "" "snaps" [])
    (fun _ _ hsp => by cases hsp; rfl)
    (fun _ _ htw => by cases htw; decide)
    (by decide)
  have h3 : (ValidateCloudArgs blankPathEnv
      (ValidateCloudArgs blankPathEnv
        (mkStore false true "" "cloud.example" "" "snaps" [])).2).1 = none := by
    rw [h2]
  revert h3
  decide

/-- C20, amended: with a `Tildefy` that maps its own outputs to themselves and
maps no non-empty path to the empty one, and a cloud client whose returned
workspace is a cloud workspace identifier, if a run of `ValidateCloudArgs`
succeeds then a second run on the store it left also succeeds and leaves that
store unchanged. -/
theorem ValidateCloudArgs_idempotent (env : Env) (v : Viper)
    (hidem : ∀ s p, env.Tildefy s = .ok p → env.Tildefy p = .ok p)
    (hws : ∀ t w, env.GetUserWorkspace t = .ok w → env.IsCloudWorkspaceIdentifier w = true)
    (hne : ∀ s p, s ≠ "" → env.Tildefy s = .ok p → p ≠ "")
    (hok : (ValidateCloudArgs env v).1 = none) :
    ValidateCloudArgs env (ValidateCloudArgs env v).2 =
      (none, (ValidateCloudArgs env v).2) := by
  cases hmode : exactlyOneMode v with
  | false =>
    have hst := ValidateCloudArgs_of_not_exactlyOne env v hmode
    rw [hst]
    exact Prod.ext hok hst
  | true =>
    obtain ⟨hres, hcred, hhost, htags, hstore⟩ := ValidateCloudArgs_success env v hmode hok
    have htwice := validateSnapshotLocation_twice env (v.GetString .ArgCloudToken) v
      hidem hws hne hres
    rw [hstore]
    generalize hv : (validateSnapshotLocation env (v.GetString .ArgCloudToken) v).2 = v2
      at hcred hhost htags htwice
    have hframe : ∀ k, k ≠ .ArgSnapshotLocation → v2 k = v k := by
      intro k hk
      rw [← hv]
      exact validateSnapshotLocation_frame env _ v k hk
    have htok : v2.GetString .ArgCloudToken = v.GetString .ArgCloudToken := by
      simp [Viper.GetString, hframe]
    have hmode2 : exactlyOneMode v2 = true := by
      rw [← hmode]
      simp [exactlyOneMode, Viper.GetBool, hframe]
    rw [ValidateCloudArgs_of_exactlyOne env v2 hmode2, htok, htwice]
    simp [hcred, hhost, htags]

theorem ValidateCloudArgs_idempotent_witness :
    (ValidateCloudArgs sampleEnv
      (mkStore false true "tok" "cloud.example" "" "~/snaps" ["env=prod"])).1 = none ∧
    (ValidateCloudArgs sampleEnv
      (mkStore false true "tok" "cloud.example" "" "~/snaps" ["env=prod"])).2.GetString
        .ArgSnapshotLocation = "/home/u/snaps" ∧
    ValidateCloudArgs sampleEnv
        (ValidateCloudArgs sampleEnv
          (mkStore false true "tok" "cloud.example" "" "~/snaps" ["env=prod"])).2 =
      (none, (ValidateCloudArgs sampleEnv
        (mkStore false true "tok" "cloud.example" "" "~/snaps" ["env=prod"])).2) :=
  ⟨by decide, by decide,
    ValidateCloudArgs_idempotent sampleEnv
      (mkStore false true "tok" "cloud.example" "" "~/snaps" ["env=prod"])
      (fun s p hsp => by
        have hp : p ≠ "~/snaps" := by
          intro hp
          subst hp
          by_cases hs : s = "~/snaps" <;> simp [sampleEnv, hs] at hsp
        simp [sampleEnv, hp])
      (fun _ _ htw => by cases htw; decide)
      (fun s p hs hsp => by
        by_cases h1 : s = "~/snaps"
        · simp [sampleEnv, h1] at hsp
          rw [← hsp]
          decide
        · simp [sampleEnv, h1] at hsp
          rw [← hsp]
          exact hs)
      (by decide)⟩

end Cmdconfig
